import Mathlib

/-!
Shallow embedding of `SceneManager.cpp` (CS-330 scene manager).

State-bearing parts (texture registry, material registry, shader uniform
writes) are modelled as explicit state passing over a `SceneState` record.
The shader manager is modelled by a `shaderNull` flag (the C++ member
`m_pShaderManager`, which the setters compare against `NULL`) together with
an append-only trace of uniform writes; "the value of a uniform after a
call sequence" is the last write with that name.  GPU texture names are
modelled by a fresh-name allocator `glNextName` plus the list `glLive` of
names allocated by `glGenTextures` and not yet deleted.  The fixed 16-entry
texture array together with its count `m_loadedTextures` is abstracted as
the list of its first `m_loadedTextures` entries.  GLM matrix arithmetic is
modelled over `ℝ` (GLM stores matrices column-major; entries below are
written in mathematical row-column order, under which GLM's `operator*` is
ordinary matrix multiplication).
-/

namespace SceneMgr

/-- One uniform value as pushed through the ShaderManager setters. -/
inductive UniformValue : Type
  | b (v : Bool)
  | i (v : Int)
  | f (v : ℚ)
  | v2 (v : ℚ × ℚ)
  | v3 (v : ℚ × ℚ × ℚ)
  | v4 (v : ℚ × ℚ × ℚ × ℚ)
  | m4 (v : Matrix (Fin 4) (Fin 4) ℝ)

/-- One `setXValue(name, value)` call on the ShaderManager. -/
structure GLWrite : Type where
  name : String
  val : UniformValue

/-- `OBJECT_MATERIAL` from SceneManager.h, as used by the .cpp code. -/
structure OBJECT_MATERIAL : Type where
  diffuseColor : ℚ × ℚ × ℚ
  specularColor : ℚ × ℚ × ℚ
  shininess : ℚ
  tag : String
  deriving DecidableEq, Repr

/-- `TEXTURE_INFO` entry: a GL texture name and its tag. -/
structure TextureEntry : Type where
  ID : Nat
  tag : String
  deriving DecidableEq, Repr

/-- The mutable state of a `SceneManager` object plus the GL/shader world it
acts on. -/
structure SceneState : Type where
  shaderNull : Bool
  textureIDs : List TextureEntry
  objectMaterials : List OBJECT_MATERIAL
  glNextName : Nat
  glLive : List Nat
  writes : List GLWrite

/-- Value of a uniform after a list of writes: the last write wins. -/
def lookupLast : List GLWrite → String → Option UniformValue
  | [], _ => none
  | w :: rest, n =>
    match lookupLast rest n with
    | some v => some v
    | none => if w.name = n then some w.val else none

/-- The `while ((index < m_loadedTextures) && (bFound == false))` loop of
`FindTextureSlot`, carrying the running `index`. -/
def findSlotLoop : List TextureEntry → String → Int → Int
  | [], _, _ => -1
  | e :: rest, tag, idx =>
    if e.tag = tag then idx else findSlotLoop rest tag (idx + 1)

/-- `SceneManager::FindTextureSlot` (lines 204-222): linear scan, returns the
slot index of the first entry with the given tag, `-1` when absent. -/
def FindTextureSlot (s : SceneState) (tag : String) : Int :=
  findSlotLoop s.textureIDs tag 0

/-- The loop of `FindTextureID`, carrying the running index implicitly. -/
def findIDLoop : List TextureEntry → String → Int
  | [], _ => -1
  | e :: rest, tag =>
    if e.tag = tag then (e.ID : Int) else findIDLoop rest tag

/-- `SceneManager::FindTextureID` (lines 178-196). -/
def FindTextureID (s : SceneState) (tag : String) : Int :=
  findIDLoop s.textureIDs tag

/-- The `while` loop of `FindMaterial` (lines 239-252): at the first entry
whose tag matches, `diffuseColor`, `specularColor` and `shininess` are copied
into the reference parameter (`tag` is not copied); the loop then stops. -/
def findMaterialLoop : List OBJECT_MATERIAL → String → OBJECT_MATERIAL → OBJECT_MATERIAL
  | [], _, m => m
  | e :: rest, tag, m =>
    if e.tag = tag then
      { m with diffuseColor := e.diffuseColor,
               specularColor := e.specularColor,
               shininess := e.shininess }
    else findMaterialLoop rest tag m

/-- `SceneManager::FindMaterial` (lines 230-255).  The reference parameter
`material` is modelled as an explicit in/out value; the C++ returns `false`
only when the list is empty, and `true` otherwise (the `bFound` flag is not
consulted for the return value). -/
def FindMaterial (s : SceneState) (tag : String) (material : OBJECT_MATERIAL) :
    Bool × OBJECT_MATERIAL :=
  if s.objectMaterials.length = 0 then (false, material)
  else (true, findMaterialLoop s.objectMaterials tag material)

/-- `SceneManager::SetShaderMaterial` (lines 382-398).  `local0` models the
default-initialized local `OBJECT_MATERIAL material;` whose fields are
indeterminate until `FindMaterial` copies into them (hence it is a
parameter here: any value is a possible C++ run). -/
def SetShaderMaterial (s : SceneState) (materialTag : String)
    (local0 : OBJECT_MATERIAL) : SceneState :=
  if s.objectMaterials.length > 0 then
    let r := FindMaterial s materialTag local0
    if r.1 = true then
      { s with writes := s.writes ++
          [⟨"material.diffuseColor", .v3 r.2.diffuseColor⟩,
           ⟨"material.specularColor", .v3 r.2.specularColor⟩,
           ⟨"material.shininess", .f r.2.shininess⟩] }
    else s
  else s

/-- `SceneManager::SetShaderColor` (lines 301-323). -/
def SetShaderColor (s : SceneState) (redColorValue greenColorValue
    blueColorValue alphaValue : ℚ) : SceneState :=
  if s.shaderNull then s
  else
    { s with writes := s.writes ++
        [⟨"bUseTexture", .b false⟩,
         ⟨"objectColor", .v4 (redColorValue, greenColorValue, blueColorValue, alphaValue)⟩,
         ⟨"blendFactor", .f 0⟩] }

/-- `SceneManager::SetShaderTexture` (lines 331-347): enables texturing, then
writes the slot returned by `FindTextureSlot` (which may be the sentinel
`-1`) to the `objectTexture` and `blendTexture` samplers and zeroes
`blendFactor`. -/
def SetShaderTexture (s : SceneState) (textureTag : String) : SceneState :=
  if s.shaderNull then s
  else
    let textureID := FindTextureSlot s textureTag
    { s with writes := s.writes ++
        [⟨"bUseTexture", .b true⟩,
         ⟨"objectTexture", .i textureID⟩,
         ⟨"blendTexture", .i textureID⟩,
         ⟨"blendFactor", .f 0⟩] }

/-- `SceneManager::SetTextureUVScale` (lines 368-374). -/
def SetTextureUVScale (s : SceneState) (u v : ℚ) : SceneState :=
  if s.shaderNull then s
  else { s with writes := s.writes ++ [⟨"UVscale", .v2 (u, v)⟩] }

/-- `SceneManager::CreateGLTexture` (lines 76-140).  The `stbi_load` result
is modelled as `Option (width, height, colorChannels)`.  On decode success a
GL texture name is always generated; the image is uploaded only for 3 or 4
channels, anything else returns `false` before the registry is touched (the
generated texture name is leaked, as in the C++). -/
def CreateGLTexture (s : SceneState) (image : Option (Int × Int × Int))
    (tag : String) : Bool × SceneState :=
  match image with
  | some (_, _, colorChannels) =>
    let textureID := s.glNextName
    let s1 : SceneState :=
      { s with glNextName := s.glNextName + 1, glLive := s.glLive ++ [textureID] }
    if colorChannels = 3 then
      (true, { s1 with textureIDs := s1.textureIDs ++ [⟨textureID, tag⟩] })
    else if colorChannels = 4 then
      (true, { s1 with textureIDs := s1.textureIDs ++ [⟨textureID, tag⟩] })
    else
      (false, s1)
  | none => (false, s)

/-- The body of `DestroyGLTextures`' loop: for each loaded slot the C++ calls
`glGenTextures(1, &m_textureIDs[i].ID)`, i.e. it allocates a fresh texture
name and stores it over the slot's ID; nothing is deleted. -/
def destroyLoop : List TextureEntry → Nat → List TextureEntry × Nat × List Nat
  | [], next => ([], next, [])
  | e :: rest, next =>
    let r := destroyLoop rest (next + 1)
    ({ e with ID := next } :: r.1, r.2.1, next :: r.2.2)

/-- `SceneManager::DestroyGLTextures` (lines 164-170). -/
def DestroyGLTextures (s : SceneState) : SceneState :=
  let r := destroyLoop s.textureIDs s.glNextName
  { s with textureIDs := r.1, glNextName := r.2.1, glLive := s.glLive ++ r.2.2 }

/-- Sequential loads in the style of `LoadSceneTextures` (lines 409-430):
each `CreateGLTexture` return value is ignored and loading continues. -/
def loadAll : SceneState → List (String × Option (Int × Int × Int)) → SceneState
  | s, [] => s
  | s, (tag, img) :: rest => loadAll (CreateGLTexture s img tag).2 rest

/-- Decode success with a channel count the upload switch accepts. -/
def isValidImage : Option (Int × Int × Int) → Bool
  | some (_, _, c) => c = 3 || c = 4
  | none => false

/-! ### GLM matrix embedding (over `ℝ`, mathematical row-column indexing) -/

/-- `glm::radians`: degrees to radians. -/
noncomputable def glmRadians (deg : ℝ) : ℝ := deg * (Real.pi / 180)

/-- `glm::normalize` on a 3-vector. -/
noncomputable def glmNormalize (v : ℝ × ℝ × ℝ) : ℝ × ℝ × ℝ :=
  let n := Real.sqrt (v.1 ^ 2 + v.2.1 ^ 2 + v.2.2 ^ 2)
  (v.1 / n, v.2.1 / n, v.2.2 / n)

/-- `glm::scale(v)`: diagonal scale matrix. -/
def glmScale (v : ℝ × ℝ × ℝ) : Matrix (Fin 4) (Fin 4) ℝ :=
  !![v.1, 0, 0, 0;
     0, v.2.1, 0, 0;
     0, 0, v.2.2, 0;
     0, 0, 0, 1]

/-- `glm::translate(v)`: identity with `v` in the last column. -/
def glmTranslate (v : ℝ × ℝ × ℝ) : Matrix (Fin 4) (Fin 4) ℝ :=
  !![1, 0, 0, v.1;
     0, 1, 0, v.2.1;
     0, 0, 1, v.2.2;
     0, 0, 0, 1]

/-- `glm::rotate(angle, axis)`: GLM's axis-angle rotation matrix
(matrix_transform.inl), with GLM's column-major `Rotate[col][row]` entries
transcribed in row-column order. -/
noncomputable def glmRotate (angle : ℝ) (v : ℝ × ℝ × ℝ) : Matrix (Fin 4) (Fin 4) ℝ :=
  let c := Real.cos angle
  let s := Real.sin angle
  let axis := glmNormalize v
  let a0 := axis.1
  let a1 := axis.2.1
  let a2 := axis.2.2
  let t0 := (1 - c) * a0
  let t1 := (1 - c) * a1
  let t2 := (1 - c) * a2
  !![c + t0 * a0, t1 * a0 - s * a2, t2 * a0 + s * a1, 0;
     t0 * a1 + s * a2, c + t1 * a1, t2 * a1 - s * a0, 0;
     t0 * a2 - s * a1, t1 * a2 + s * a0, c + t2 * a2, 0;
     0, 0, 0, 1]

/-- The model matrix computed by `SetTransformations` (lines 263-287): the
five matrices are built independently and multiplied as
`translation * rotationZ * rotationY * rotationX * scale`. -/
noncomputable def modelMatrix (scaleXYZ : ℝ × ℝ × ℝ)
    (XrotationDegrees YrotationDegrees ZrotationDegrees : ℝ)
    (positionXYZ : ℝ × ℝ × ℝ) : Matrix (Fin 4) (Fin 4) ℝ :=
  let scale := glmScale scaleXYZ
  let rotationX := glmRotate (glmRadians XrotationDegrees) (1, 0, 0)
  let rotationY := glmRotate (glmRadians YrotationDegrees) (0, 1, 0)
  let rotationZ := glmRotate (glmRadians ZrotationDegrees) (0, 0, 1)
  let translation := glmTranslate positionXYZ
  translation * rotationZ * rotationY * rotationX * scale

/-- `SceneManager::SetTransformations` (lines 263-293): computes the model
matrix and, when the shader manager is non-null, pushes it as the `model`
uniform. -/
noncomputable def SetTransformations (s : SceneState) (scaleXYZ : ℝ × ℝ × ℝ)
    (XrotationDegrees YrotationDegrees ZrotationDegrees : ℝ)
    (positionXYZ : ℝ × ℝ × ℝ) : SceneState :=
  let modelView := modelMatrix scaleXYZ XrotationDegrees YrotationDegrees
    ZrotationDegrees positionXYZ
  if s.shaderNull then s
  else { s with writes := s.writes ++ [⟨"model", .m4 modelView⟩] }

/-! ### Spec-side transform definitions

These follow the spec's words ("builds independent scale, rotationX,
rotationY, rotationZ, and translation matrices", standard axis rotations)
and are compared with the code-side `modelMatrix` above. -/

/-- Standard rotation about the X axis (spec-side). -/
noncomputable def specRotX (θ : ℝ) : Matrix (Fin 4) (Fin 4) ℝ :=
  !![1, 0, 0, 0;
     0, Real.cos θ, -Real.sin θ, 0;
     0, Real.sin θ, Real.cos θ, 0;
     0, 0, 0, 1]

/-- Standard rotation about the Y axis (spec-side). -/
noncomputable def specRotY (θ : ℝ) : Matrix (Fin 4) (Fin 4) ℝ :=
  !![Real.cos θ, 0, Real.sin θ, 0;
     0, 1, 0, 0;
     -Real.sin θ, 0, Real.cos θ, 0;
     0, 0, 0, 1]

/-- Standard rotation about the Z axis (spec-side). -/
noncomputable def specRotZ (θ : ℝ) : Matrix (Fin 4) (Fin 4) ℝ :=
  !![Real.cos θ, -Real.sin θ, 0, 0;
     Real.sin θ, Real.cos θ, 0, 0;
     0, 0, 1, 0;
     0, 0, 0, 1]

/-- Spec-side composition `translation * rotationZ * rotationY * rotationX *
scale` with standard axis-rotation matrices. -/
noncomputable def specCompose (scaleXYZ : ℝ × ℝ × ℝ)
    (xDeg yDeg zDeg : ℝ) (positionXYZ : ℝ × ℝ × ℝ) : Matrix (Fin 4) (Fin 4) ℝ :=
  glmTranslate positionXYZ * specRotZ (glmRadians zDeg) *
    specRotY (glmRadians yDeg) * specRotX (glmRadians xDeg) * glmScale scaleXYZ

/-! ### Concrete fixture states -/

/-- A fresh manager with a non-null shader, no textures, no materials. -/
def emptyScene : SceneState :=
  { shaderNull := false, textureIDs := [], objectMaterials := [],
    glNextName := 0, glLive := [], writes := [] }

/-- A manager constructed with a `NULL` shader-manager pointer. -/
def nullScene : SceneState :=
  { shaderNull := true, textureIDs := [], objectMaterials := [],
    glNextName := 0, glLive := [], writes := [] }

/-- A manager whose material registry holds exactly the `plastic` entry of
`DefineObjectMaterials` (lines 437-443). -/
def plasticScene : SceneState :=
  { shaderNull := false, textureIDs := [],
    objectMaterials := [⟨(5, 5, 5), (5, 5, 5), 30, "plastic"⟩],
    glNextName := 0, glLive := [], writes := [] }

/-- A manager with one loaded texture tagged `wood`. -/
def oneTexScene : SceneState :=
  { shaderNull := false, textureIDs := [⟨0, "wood"⟩], objectMaterials := [],
    glNextName := 1, glLive := [0], writes := [] }

/-- One possible value of the default-initialized local
`OBJECT_MATERIAL material;` in `SetShaderMaterial` (its fields are
indeterminate in C++; any value is a possible run). -/
def junkLocal : OBJECT_MATERIAL := ⟨(7, 8, 9), (10, 11, 12), 13, ""⟩

/-- First of two materials registered under the same tag. -/
def woodFirst : OBJECT_MATERIAL := ⟨(1, 0, 0), (0, 0, 0), 1, "wood"⟩

/-- Second material registered under the same tag, with different values. -/
def woodSecond : OBJECT_MATERIAL := ⟨(0, 1, 0), (1, 1, 1), 2, "wood"⟩

/-- A manager whose material registry holds two entries tagged `wood`. -/
def twoWoodScene : SceneState :=
  { shaderNull := false, textureIDs := [], objectMaterials := [woodFirst, woodSecond],
    glNextName := 0, glLive := [], writes := [] }

/-- Two valid loads (one RGB, one RGBA) with distinct tags. -/
def loadPair : List (String × Option (Int × Int × Int)) :=
  [("wood", some (64, 64, 3)), ("metal", some (32, 32, 4))]

/-! ### Helper lemmas -/

theorem glmRotate_unitX (θ : ℝ) : glmRotate θ (1, 0, 0) = specRotX θ := by
  have h1 : (glmNormalize ((1 : ℝ), 0, 0)).1 = 1 := by
    norm_num [glmNormalize, Real.sqrt_one]
  have h2 : (glmNormalize ((1 : ℝ), 0, 0)).2.1 = 0 := by
    norm_num [glmNormalize]
  have h3 : (glmNormalize ((1 : ℝ), 0, 0)).2.2 = 0 := by
    norm_num [glmNormalize]
  ext i j
  fin_cases i <;> fin_cases j <;>
    simp only [glmRotate, h1, h2, h3, specRotX, Matrix.cons_val', Matrix.cons_val_zero,
      Matrix.cons_val_one, Matrix.head_cons, Matrix.cons_val_two, Matrix.tail_cons,
      Matrix.cons_val_three, Matrix.head_fin_const, Matrix.of_apply,
      Matrix.cons_val_fin_one] <;> ring_nf

theorem glmRotate_unitY (θ : ℝ) : glmRotate θ (0, 1, 0) = specRotY θ := by
  have h1 : (glmNormalize ((0 : ℝ), 1, 0)).1 = 0 := by
    norm_num [glmNormalize]
  have h2 : (glmNormalize ((0 : ℝ), 1, 0)).2.1 = 1 := by
    norm_num [glmNormalize, Real.sqrt_one]
  have h3 : (glmNormalize ((0 : ℝ), 1, 0)).2.2 = 0 := by
    norm_num [glmNormalize]
  ext i j
  fin_cases i <;> fin_cases j <;>
    simp only [glmRotate, h1, h2, h3, specRotY, Matrix.cons_val', Matrix.cons_val_zero,
      Matrix.cons_val_one, Matrix.head_cons, Matrix.cons_val_two, Matrix.tail_cons,
      Matrix.cons_val_three, Matrix.head_fin_const, Matrix.of_apply,
      Matrix.cons_val_fin_one] <;> ring_nf

theorem glmRotate_unitZ (θ : ℝ) : glmRotate θ (0, 0, 1) = specRotZ θ := by
  have h1 : (glmNormalize ((0 : ℝ), 0, 1)).1 = 0 := by
    norm_num [glmNormalize]
  have h2 : (glmNormalize ((0 : ℝ), 0, 1)).2.1 = 0 := by
    norm_num [glmNormalize]
  have h3 : (glmNormalize ((0 : ℝ), 0, 1)).2.2 = 1 := by
    norm_num [glmNormalize, Real.sqrt_one]
  ext i j
  fin_cases i <;> fin_cases j <;>
    simp only [glmRotate, h1, h2, h3, specRotZ, Matrix.cons_val', Matrix.cons_val_zero,
      Matrix.cons_val_one, Matrix.head_cons, Matrix.cons_val_two, Matrix.tail_cons,
      Matrix.cons_val_three, Matrix.head_fin_const, Matrix.of_apply,
      Matrix.cons_val_fin_one] <;> ring_nf

theorem glmScale_one : glmScale (1, 1, 1) = 1 := by
  ext i j
  fin_cases i <;> fin_cases j <;>
    simp [glmScale, Matrix.one_apply, Matrix.vecHead, Matrix.vecTail]

theorem glmTranslate_zero : glmTranslate (0, 0, 0) = 1 := by
  ext i j
  fin_cases i <;> fin_cases j <;>
    simp [glmTranslate, Matrix.one_apply, Matrix.vecHead, Matrix.vecTail]

theorem specRotX_zero : specRotX 0 = 1 := by
  ext i j
  fin_cases i <;> fin_cases j <;>
    simp [specRotX, Matrix.one_apply, Matrix.vecHead, Matrix.vecTail]

theorem specRotY_zero : specRotY 0 = 1 := by
  ext i j
  fin_cases i <;> fin_cases j <;>
    simp [specRotY, Matrix.one_apply, Matrix.vecHead, Matrix.vecTail]

theorem specRotZ_zero : specRotZ 0 = 1 := by
  ext i j
  fin_cases i <;> fin_cases j <;>
    simp [specRotZ, Matrix.one_apply, Matrix.vecHead, Matrix.vecTail]

theorem modelMatrix_eq_specCompose (sc : ℝ × ℝ × ℝ) (xr yr zr : ℝ)
    (pos : ℝ × ℝ × ℝ) : modelMatrix sc xr yr zr pos = specCompose sc xr yr zr pos := by
  simp only [modelMatrix, specCompose, glmRotate_unitX, glmRotate_unitY, glmRotate_unitZ]

theorem lookupLast_append_of_some (l1 l2 : List GLWrite) (n : String)
    (v : UniformValue) (h : lookupLast l2 n = some v) :
    lookupLast (l1 ++ l2) n = some v := by
  induction l1 with
  | nil => simpa using h
  | cons w rest ih => simp [lookupLast, ih]

theorem findSlotLoop_of_none (l : List TextureEntry) (tag : String)
    (h : ∀ e ∈ l, e.tag ≠ tag) : ∀ k : Int, findSlotLoop l tag k = -1 := by
  induction l with
  | nil => intro k; rfl
  | cons e rest ih =>
    intro k
    have he : e.tag ≠ tag := h e (by simp)
    simp only [findSlotLoop, if_neg he]
    exact ih (fun x hx => h x (by simp [hx])) (k + 1)

theorem findSlotLoop_first (l : List TextureEntry) (tag : String) :
    ∀ (i : Nat) (k : Int) (hi : i < l.length), (l.get ⟨i, hi⟩).tag = tag →
    (∀ j (hj : j < i), (l.get ⟨j, by omega⟩).tag ≠ tag) →
    findSlotLoop l tag k = k + i := by
  induction l with
  | nil => intro i k hi; simp at hi
  | cons e rest ih =>
    intro i k hi hmatch hmiss
    cases i with
    | zero =>
      simp only [List.get] at hmatch
      simp [findSlotLoop, hmatch]
    | succ m =>
      have he : e.tag ≠ tag := by
        have := hmiss 0 (by omega)
        simpa using this
      simp only [findSlotLoop, if_neg he]
      have hm : m < rest.length := by simpa using hi
      have hmatch' : (rest.get ⟨m, hm⟩).tag = tag := by simpa using hmatch
      have hmiss' : ∀ j (hj : j < m), (rest.get ⟨j, by omega⟩).tag ≠ tag := by
        intro j hj
        have := hmiss (j + 1) (by omega)
        simpa using this
      rw [ih m (k + 1) hm hmatch' hmiss']
      push_cast
      ring

theorem findMaterialLoop_append_miss (pre l : List OBJECT_MATERIAL) (tag : String)
    (m0 : OBJECT_MATERIAL) (hpre : ∀ x ∈ pre, x.tag ≠ tag) :
    findMaterialLoop (pre ++ l) tag m0 = findMaterialLoop l tag m0 := by
  induction pre with
  | nil => rfl
  | cons x xs ih =>
    have hx : x.tag ≠ tag := hpre x (by simp)
    simp only [List.cons_append, findMaterialLoop, if_neg hx]
    exact ih (fun y hy => hpre y (by simp [hy]))

theorem findMaterial_true_of_nonempty (s : SceneState) (tag : String)
    (m0 : OBJECT_MATERIAL) (h : s.objectMaterials ≠ []) :
    (FindMaterial s tag m0).1 = true := by
  simp [FindMaterial, List.length_eq_zero, h]

theorem createGLTexture_valid_append (s : SceneState) (img : Option (Int × Int × Int))
    (tag : String) (hv : isValidImage img = true) :
    (CreateGLTexture s img tag).1 = true ∧
    (CreateGLTexture s img tag).2.textureIDs = s.textureIDs ++ [⟨s.glNextName, tag⟩] := by
  match img with
  | none => simp [isValidImage] at hv
  | some (w, h, c) =>
    simp only [isValidImage, Bool.or_eq_true, decide_eq_true_eq] at hv
    rcases hv with h3 | h4
    · subst h3; norm_num [CreateGLTexture]
    · subst h4; norm_num [CreateGLTexture]

theorem loadAll_tags (inputs : List (String × Option (Int × Int × Int))) :
    ∀ s : SceneState, (∀ p ∈ inputs, isValidImage p.2 = true) →
    (loadAll s inputs).textureIDs.map TextureEntry.tag =
      s.textureIDs.map TextureEntry.tag ++ inputs.map Prod.fst := by
  induction inputs with
  | nil => intro s _; simp [loadAll]
  | cons p rest ih =>
    intro s hv
    obtain ⟨tag, img⟩ := p
    have hp : isValidImage img = true := hv (tag, img) (by simp)
    have happ := (createGLTexture_valid_append s img tag hp).2
    simp only [loadAll]
    rw [ih _ (fun q hq => hv q (by simp [hq])), happ]
    simp

/-! ### Claim theorems -/

/-- C1: contrary to the claim, with a nonempty material registry and an
unresolved tag `SetShaderMaterial` does write the material uniforms:
`FindMaterial` returns `true` despite the miss (`bFound` is never consulted
for the return value), so the diffuse/specular/shininess uniforms are
written with the indeterminate values of the uninitialized local. -/
theorem setShaderMaterial_unresolved_tag_still_writes :
    FindMaterial plasticScene "missing" junkLocal = (true, junkLocal) ∧
    (SetShaderMaterial plasticScene "missing" junkLocal).writes =
      [⟨"material.diffuseColor", .v3 (7, 8, 9)⟩,
       ⟨"material.specularColor", .v3 (10, 11, 12)⟩,
       ⟨"material.shininess", .f 13⟩] :=
  ⟨rfl, rfl⟩

/-- C2: contrary to the claim, `DestroyGLTextures` frees nothing: for each
loaded slot it calls `glGenTextures`, so after one successful load the
created texture name 0 is still live and a fresh name 1 has been allocated
over the slot; a second call allocates yet another name instead of being a
no-op. -/
theorem destroyGLTextures_allocates_instead_of_freeing :
    (CreateGLTexture emptyScene (some (2, 2, 3)) "t").2.glLive = [0] ∧
    (DestroyGLTextures (CreateGLTexture emptyScene (some (2, 2, 3)) "t").2).glLive = [0, 1] ∧
    (DestroyGLTextures (CreateGLTexture emptyScene (some (2, 2, 3)) "t").2).textureIDs = [⟨1, "t"⟩] ∧
    (DestroyGLTextures (DestroyGLTextures (CreateGLTexture emptyScene (some (2, 2, 3)) "t").2)).glLive = [0, 1, 2] :=
  ⟨rfl, rfl, rfl, rfl⟩

/-- C3 counterexample: for a tag absent from the registry the lookup does
return the sentinel `-1`, but `SetShaderTexture` leaves the last
`bUseTexture` write `true`, not `false`: texture sampling is enabled, not
disabled, for the next draw. -/
theorem setShaderTexture_missing_tag_enables_texturing :
    FindTextureSlot emptyScene "missing" = -1 ∧
    lookupLast (SetShaderTexture emptyScene "missing").writes "bUseTexture" = some (.b true) ∧
    lookupLast (SetShaderTexture emptyScene "missing").writes "bUseTexture" ≠ some (.b false) := by
  refine ⟨rfl, rfl, ?_⟩
  have h : lookupLast (SetShaderTexture emptyScene "missing").writes "bUseTexture" =
      some (UniformValue.b true) := rfl
  rw [h]
  simp

/-- C3 (amended): for every tag absent from the texture registry the lookup
returns the sentinel `-1` (no exception, no fatal error), and
`SetShaderTexture` enables texture sampling and writes the sentinel slot
`-1` to the `objectTexture` and `blendTexture` samplers with a zero blend
factor. -/
theorem setShaderTexture_absent_tag_sentinel (s : SceneState) (tag : String)
    (hnull : s.shaderNull = false) (habs : ∀ e ∈ s.textureIDs, e.tag ≠ tag) :
    FindTextureSlot s tag = -1 ∧
    (SetShaderTexture s tag).writes = s.writes ++
      [⟨"bUseTexture", .b true⟩, ⟨"objectTexture", .i (-1)⟩,
       ⟨"blendTexture", .i (-1)⟩, ⟨"blendFactor", .f 0⟩] := by
  have hm : FindTextureSlot s tag = -1 := findSlotLoop_of_none s.textureIDs tag habs 0
  exact ⟨hm, by simp [SetShaderTexture, hnull, hm]⟩

theorem setShaderTexture_absent_tag_sentinel_witness :
    emptyScene.shaderNull = false ∧
    (FindTextureSlot emptyScene "marble" = -1 ∧
     (SetShaderTexture emptyScene "marble").writes = emptyScene.writes ++
       [⟨"bUseTexture", .b true⟩, ⟨"objectTexture", .i (-1)⟩,
        ⟨"blendTexture", .i (-1)⟩, ⟨"blendFactor", .f 0⟩]) :=
  ⟨rfl, setShaderTexture_absent_tag_sentinel emptyScene "marble" rfl (by simp [emptyScene])⟩

/-- C4: with two entries registered under the same tag (and no earlier entry
carrying that tag), `FindMaterial` returns the first-registered entry's
values, not the second's: first-match wins, later entries never overwrite
or shadow the first. -/
theorem material_lookup_first_registered (s : SceneState)
    (pre mid post : List OBJECT_MATERIAL) (e1 e2 : OBJECT_MATERIAL)
    (tag : String) (m0 : OBJECT_MATERIAL)
    (hs : s.objectMaterials = pre ++ e1 :: (mid ++ e2 :: post))
    (hpre : ∀ x ∈ pre, x.tag ≠ tag)
    (h1 : e1.tag = tag) (h2 : e2.tag = tag)
    (hne : e1.diffuseColor ≠ e2.diffuseColor) :
    FindMaterial s tag m0 =
      (true, { m0 with diffuseColor := e1.diffuseColor,
                       specularColor := e1.specularColor,
                       shininess := e1.shininess }) ∧
    (FindMaterial s tag m0).2.diffuseColor ≠ e2.diffuseColor := by
  have hlen : ¬ s.objectMaterials.length = 0 := by simp [hs]
  have hloop : findMaterialLoop s.objectMaterials tag m0 =
      { m0 with diffuseColor := e1.diffuseColor,
                specularColor := e1.specularColor,
                shininess := e1.shininess } := by
    rw [hs, findMaterialLoop_append_miss pre _ tag m0 hpre]
    simp [findMaterialLoop, h1]
  refine ⟨?_, ?_⟩ <;> simp [FindMaterial, hlen, hloop, hne]

theorem material_lookup_first_registered_witness :
    woodFirst.tag = "wood" ∧ woodSecond.tag = "wood" ∧
    woodFirst.diffuseColor ≠ woodSecond.diffuseColor ∧
    (FindMaterial twoWoodScene "wood" junkLocal =
      (true, { junkLocal with diffuseColor := woodFirst.diffuseColor,
                              specularColor := woodFirst.specularColor,
                              shininess := woodFirst.shininess }) ∧
     (FindMaterial twoWoodScene "wood" junkLocal).2.diffuseColor ≠ woodSecond.diffuseColor) :=
  ⟨rfl, rfl, by decide,
   material_lookup_first_registered twoWoodScene [] [] [] woodFirst woodSecond
     "wood" junkLocal rfl (by simp) rfl rfl (by decide)⟩

/-- C5: for every scale triple, rotation-degree triple and position triple,
the model matrix `SetTransformations` pushes to the shader equals the
product `translation * rotationZ * rotationY * rotationX * scale` of the
independently built standard matrices, in exactly that order. -/
theorem setTransformations_fixed_order (s : SceneState)
    (sc : ℝ × ℝ × ℝ) (xr yr zr : ℝ) (pos : ℝ × ℝ × ℝ)
    (hnull : s.shaderNull = false) :
    (SetTransformations s sc xr yr zr pos).writes =
      s.writes ++ [⟨"model", .m4 (specCompose sc xr yr zr pos)⟩] := by
  simp [SetTransformations, hnull, modelMatrix_eq_specCompose]

theorem setTransformations_fixed_order_witness :
    emptyScene.shaderNull = false ∧
    (SetTransformations emptyScene (1, 2, 3) 30 45 60 (4, 5, 6)).writes =
      emptyScene.writes ++ [⟨"model", .m4 (specCompose (1, 2, 3) 30 45 60 (4, 5, 6))⟩] :=
  ⟨rfl, setTransformations_fixed_order emptyScene (1, 2, 3) 30 45 60 (4, 5, 6) rfl⟩

/-- C6: composing the neutral transform — scale `(1,1,1)`, rotations `0`
degrees, translation `(0,0,0)` — yields the 4x4 identity model matrix. -/
theorem neutral_transform_identity : modelMatrix (1, 1, 1) 0 0 0 (0, 0, 0) = 1 := by
  have h0 : glmRadians 0 = 0 := by simp [glmRadians]
  rw [modelMatrix_eq_specCompose]
  simp only [specCompose, h0, specRotX_zero, specRotY_zero, specRotZ_zero,
    glmScale_one, glmTranslate_zero, mul_one, one_mul]

/-- C7: a successfully decoded image whose channel count is neither 3 nor 4
makes `CreateGLTexture` return `false` and register nothing: the registry
and its count are unchanged and a subsequent `FindTextureSlot` for that tag
still returns the not-found sentinel. -/
theorem createGLTexture_unsupported_channels (s : SceneState) (w hgt c : Int)
    (tag : String) (h3 : c ≠ 3) (h4 : c ≠ 4)
    (hmiss : FindTextureSlot s tag = -1) :
    (CreateGLTexture s (some (w, hgt, c)) tag).1 = false ∧
    (CreateGLTexture s (some (w, hgt, c)) tag).2.textureIDs = s.textureIDs ∧
    (CreateGLTexture s (some (w, hgt, c)) tag).2.textureIDs.length = s.textureIDs.length ∧
    FindTextureSlot (CreateGLTexture s (some (w, hgt, c)) tag).2 tag = -1 := by
  refine ⟨?_, ?_, ?_, ?_⟩ <;>
    simp [CreateGLTexture, h3, h4, FindTextureSlot] <;>
    simpa [FindTextureSlot] using hmiss

theorem createGLTexture_unsupported_channels_witness :
    ((2 : Int) ≠ 3) ∧ ((2 : Int) ≠ 4) ∧ FindTextureSlot emptyScene "gray" = -1 ∧
    ((CreateGLTexture emptyScene (some (8, 8, 2)) "gray").1 = false ∧
     (CreateGLTexture emptyScene (some (8, 8, 2)) "gray").2.textureIDs = emptyScene.textureIDs ∧
     (CreateGLTexture emptyScene (some (8, 8, 2)) "gray").2.textureIDs.length =
       emptyScene.textureIDs.length ∧
     FindTextureSlot (CreateGLTexture emptyScene (some (8, 8, 2)) "gray").2 "gray" = -1) :=
  ⟨by decide, by decide, rfl,
   createGLTexture_unsupported_channels emptyScene 8 8 2 "gray" (by decide) (by decide) rfl⟩

/-- C8: loading a sequence of valid images with pairwise distinct tags from
an empty registry gives each tag the slot equal to its registration
position; all slots lie in `[0, N)` and are pairwise distinct. -/
theorem distinct_loads_distinct_slots (inputs : List (String × Option (Int × Int × Int)))
    (s : SceneState) (hempty : s.textureIDs = [])
    (hv : ∀ p ∈ inputs, isValidImage p.2 = true)
    (hnodup : (inputs.map Prod.fst).Nodup) :
    ∀ i : Fin inputs.length,
      FindTextureSlot (loadAll s inputs) (inputs.get i).1 = (i : Int) ∧
      0 ≤ FindTextureSlot (loadAll s inputs) (inputs.get i).1 ∧
      FindTextureSlot (loadAll s inputs) (inputs.get i).1 < inputs.length ∧
      ∀ j : Fin inputs.length, j ≠ i →
        FindTextureSlot (loadAll s inputs) (inputs.get j).1 ≠
          FindTextureSlot (loadAll s inputs) (inputs.get i).1 := by
  have htags : (loadAll s inputs).textureIDs.map TextureEntry.tag = inputs.map Prod.fst := by
    have := loadAll_tags inputs s hv
    rw [hempty] at this
    simpa using this
  have hlen : (loadAll s inputs).textureIDs.length = inputs.length := by
    have := congrArg List.length htags
    simpa using this
  have hget : ∀ (j : Nat) (hj : j < inputs.length),
      ((loadAll s inputs).textureIDs.get ⟨j, by rw [hlen]; exact hj⟩).tag =
        (inputs.get ⟨j, hj⟩).1 := by
    intro j hj
    have hj' : j < (loadAll s inputs).textureIDs.length := by rw [hlen]; exact hj
    have e0 : ((loadAll s inputs).textureIDs.map TextureEntry.tag)[j]? =
        (inputs.map Prod.fst)[j]? := by rw [htags]
    rw [List.getElem?_map, List.getElem?_map, List.getElem?_eq_getElem hj',
      List.getElem?_eq_getElem hj] at e0
    simpa using e0
  have key : ∀ i : Fin inputs.length,
      FindTextureSlot (loadAll s inputs) (inputs.get i).1 = (i : Int) := by
    intro i
    have hi : (i : Nat) < (loadAll s inputs).textureIDs.length := by
      rw [hlen]; exact i.2
    have hmatch : ((loadAll s inputs).textureIDs.get ⟨i, hi⟩).tag = (inputs.get i).1 :=
      hget i i.2
    have hmiss : ∀ j (hj : j < (i : Nat)),
        ((loadAll s inputs).textureIDs.get ⟨j, by omega⟩).tag ≠ (inputs.get i).1 := by
      intro j hj
      have hj2 : j < inputs.length := by omega
      rw [hget j hj2]
      intro hcontr
      have hmap : (inputs.map Prod.fst).get ⟨j, by simpa using hj2⟩ =
          (inputs.map Prod.fst).get ⟨(i : Nat), by simpa using i.2⟩ := by
        rw [List.get_map, List.get_map]
        simpa using hcontr
      have hfin := hnodup.get_inj_iff.mp hmap
      have : j = (i : Nat) := by simpa [Fin.ext_iff] using hfin
      omega
    have := findSlotLoop_first (loadAll s inputs).textureIDs (inputs.get i).1
      i 0 hi hmatch hmiss
    simpa [FindTextureSlot] using this
  intro i
  refine ⟨key i, ?_, ?_, ?_⟩
  · rw [key i]; exact Int.ofNat_nonneg i
  · rw [key i]; exact_mod_cast i.2
  · intro j hji
    rw [key i, key j]
    intro hcontr
    exact hji (Fin.ext (by exact_mod_cast hcontr))

theorem distinct_loads_distinct_slots_witness :
    emptyScene.textureIDs = [] ∧
    (∀ p ∈ loadPair, isValidImage p.2 = true) ∧
    (loadPair.map Prod.fst).Nodup ∧
    ∀ i : Fin loadPair.length,
      FindTextureSlot (loadAll emptyScene loadPair) (loadPair.get i).1 = (i : Int) ∧
      0 ≤ FindTextureSlot (loadAll emptyScene loadPair) (loadPair.get i).1 ∧
      FindTextureSlot (loadAll emptyScene loadPair) (loadPair.get i).1 < loadPair.length ∧
      ∀ j : Fin loadPair.length, j ≠ i →
        FindTextureSlot (loadAll emptyScene loadPair) (loadPair.get j).1 ≠
          FindTextureSlot (loadAll emptyScene loadPair) (loadPair.get i).1 :=
  ⟨rfl, by decide, by decide,
   distinct_loads_distinct_slots loadPair emptyScene rfl (by decide) (by decide)⟩

/-- C9: `SetShaderColor` disables texturing, sets the flat color and zeroes
the blend factor; following it immediately with `SetShaderTexture` on a
registered tag leaves the final uniform state texture-driven: the last
`bUseTexture` write is `true`, the sampler holds the tag's slot, and the
last `blendFactor` write is zero. -/
theorem color_then_texture_texture_driven (s : SceneState) (r g b a : ℚ)
    (tag : String) (hnull : s.shaderNull = false)
    (hreg : tag ∈ s.textureIDs.map TextureEntry.tag) :
    lookupLast (SetShaderColor s r g b a).writes "bUseTexture" = some (.b false) ∧
    lookupLast (SetShaderColor s r g b a).writes "objectColor" = some (.v4 (r, g, b, a)) ∧
    lookupLast (SetShaderColor s r g b a).writes "blendFactor" = some (.f 0) ∧
    lookupLast (SetShaderTexture (SetShaderColor s r g b a) tag).writes "bUseTexture" = some (.b true) ∧
    lookupLast (SetShaderTexture (SetShaderColor s r g b a) tag).writes "objectTexture" =
      some (.i (FindTextureSlot s tag)) ∧
    lookupLast (SetShaderTexture (SetShaderColor s r g b a) tag).writes "blendFactor" = some (.f 0) := by
  have hcw : (SetShaderColor s r g b a).writes = s.writes ++
      [⟨"bUseTexture", .b false⟩, ⟨"objectColor", .v4 (r, g, b, a)⟩, ⟨"blendFactor", .f 0⟩] := by
    simp [SetShaderColor, hnull]
  have hcn : (SetShaderColor s r g b a).shaderNull = false := by
    simp [SetShaderColor, hnull]
  have hct : (SetShaderColor s r g b a).textureIDs = s.textureIDs := by
    simp [SetShaderColor, hnull]
  have hslot : FindTextureSlot (SetShaderColor s r g b a) tag = FindTextureSlot s tag := by
    simp [FindTextureSlot, hct]
  have htw : (SetShaderTexture (SetShaderColor s r g b a) tag).writes =
      (SetShaderColor s r g b a).writes ++
      [⟨"bUseTexture", .b true⟩, ⟨"objectTexture", .i (FindTextureSlot s tag)⟩,
       ⟨"blendTexture", .i (FindTextureSlot s tag)⟩, ⟨"blendFactor", .f 0⟩] := by
    simp [SetShaderTexture, hcn, hslot]
  refine ⟨?_, ?_, ?_, ?_, ?_, ?_⟩
  · rw [hcw]; exact lookupLast_append_of_some _ _ _ _ rfl
  · rw [hcw]; exact lookupLast_append_of_some _ _ _ _ rfl
  · rw [hcw]; exact lookupLast_append_of_some _ _ _ _ rfl
  · rw [htw]; exact lookupLast_append_of_some _ _ _ _ rfl
  · rw [htw]; exact lookupLast_append_of_some _ _ _ _ rfl
  · rw [htw]; exact lookupLast_append_of_some _ _ _ _ rfl

theorem color_then_texture_texture_driven_witness :
    oneTexScene.shaderNull = false ∧
    "wood" ∈ oneTexScene.textureIDs.map TextureEntry.tag ∧
    (lookupLast (SetShaderColor oneTexScene 1 0 0 1).writes "bUseTexture" = some (.b false) ∧
     lookupLast (SetShaderColor oneTexScene 1 0 0 1).writes "objectColor" =
       some (.v4 (1, 0, 0, 1)) ∧
     lookupLast (SetShaderColor oneTexScene 1 0 0 1).writes "blendFactor" = some (.f 0) ∧
     lookupLast (SetShaderTexture (SetShaderColor oneTexScene 1 0 0 1) "wood").writes
       "bUseTexture" = some (.b true) ∧
     lookupLast (SetShaderTexture (SetShaderColor oneTexScene 1 0 0 1) "wood").writes
       "objectTexture" = some (.i (FindTextureSlot oneTexScene "wood")) ∧
     lookupLast (SetShaderTexture (SetShaderColor oneTexScene 1 0 0 1) "wood").writes
       "blendFactor" = some (.f 0)) :=
  ⟨rfl, by simp [oneTexScene],
   color_then_texture_texture_driven oneTexScene 1 0 0 1 "wood" rfl (by simp [oneTexScene])⟩

/-- C10: with a null shader-manager pointer, `SetTransformations`,
`SetShaderColor`, `SetShaderTexture` and `SetTextureUVScale` each leave the
whole state unchanged: no uniform write, no registry or counter change. -/
theorem null_shader_total_noop (s : SceneState) (hnull : s.shaderNull = true)
    (sc : ℝ × ℝ × ℝ) (xr yr zr : ℝ) (pos : ℝ × ℝ × ℝ)
    (r g b a : ℚ) (tag : String) (u v : ℚ) :
    SetTransformations s sc xr yr zr pos = s ∧
    SetShaderColor s r g b a = s ∧
    SetShaderTexture s tag = s ∧
    SetTextureUVScale s u v = s := by
  refine ⟨?_, ?_, ?_, ?_⟩ <;>
    simp [SetTransformations, SetShaderColor, SetShaderTexture, SetTextureUVScale, hnull]

theorem null_shader_total_noop_witness :
    nullScene.shaderNull = true ∧
    (SetTransformations nullScene (1, 1, 1) 0 0 0 (0, 0, 0) = nullScene ∧
     SetShaderColor nullScene 1 0 0 1 = nullScene ∧
     SetShaderTexture nullScene "wood" = nullScene ∧
     SetTextureUVScale nullScene 2 2 = nullScene) :=
  ⟨rfl, null_shader_total_noop nullScene rfl (1, 1, 1) 0 0 0 (0, 0, 0) 1 0 0 1 "wood" 2 2⟩

end SceneMgr
